import Mathlib

/-!
Verification of the SDCP printer client
(`custom_components/elegoo_printer/elegoo_sdcp/elegoo_printer.py`).

The wire carries JSON text.  `json.loads` / `json.dumps` belong to the Python
runtime, not to this repository, so the embedding works on parsed JSON values:
an inbound frame is an `Option Json` (`none` models a `json.JSONDecodeError`
from `json.loads`), and an outbound frame is the `Json` value that
`json.dumps` would serialise.  Python exceptions are modelled explicitly by
`PyError`; a Python method that can raise becomes a Lean function returning
`Except PyError _`.
-/

/-- A parsed JSON value.  Objects are association lists with distinct keys
(the shape `json.loads` produces); numbers are modelled as integers, which
covers every numeric field the protocol uses. -/
inductive Json where
  | null
  | bool (b : Bool)
  | num (n : Int)
  | str (s : String)
  | arr (elems : List Json)
  | obj (fields : List (String × Json))
  deriving Repr

/-- Python `d.get(k)` on a dict: `some v` when the key is present, `none`
otherwise.  Only meaningful on `Json.obj`; callers model the
`AttributeError` raised on non-dicts themselves. -/
def Json.get? (j : Json) (k : String) : Option Json :=
  match j with
  | .obj fields => fields.lookup k
  | _ => none

/-- Python truthiness of a JSON value (`if x:`): `None`, `False`, `0`, empty
string and empty containers are falsy. -/
def Json.truthy : Json → Bool
  | .null => false
  | .bool b => b
  | .num n => n != 0
  | .str s => s != ""
  | .arr elems => !elems.isEmpty
  | .obj fields => !fields.isEmpty

/-- The Python exceptions the client code can raise or observe.
`websocketError` is `ElegooPrinterClientWebsocketError`, `notConnected` is
`ElegooPrinterClientWebsocketConnectionError`; `osError` carries an errno so
that re-raised OS errors stay distinguishable from wrapped ones. -/
inductive PyError where
  | jsonDecodeError
  | indexError
  | attributeError
  | typeError
  | valueError
  | websocketError
  | notConnected
  | osError (code : Nat)
  deriving Repr, DecidableEq

/-- Modelled from the spec: `models/printer.py` is not under src/.  Per
spec §3, a Printer identity record holds a name, a network address, a
stable device identifier, a connection/session token and a device-class
flag, and is immutable once discovered. -/
structure Printer where
  name : String
  ip_address : String
  id : String
  connection : String
  centauri_carbon : Bool
  deriving Repr, DecidableEq

/-- `Printer()` with no arguments, as used by `__init__`: an empty identity. -/
def Printer.empty : Printer :=
  { name := "", ip_address := "", id := "", connection := "", centauri_carbon := false }

/-- Modelled from the spec: the `Printer(printer_info, centauri_carbon=…)`
constructor of the missing `models/printer.py`.  Per spec §4.1/§6 the
discovery reply is free-form text with printer identity fields, and the
spec §8 scenario `{"Name":"P1","IPAddress":"192.0.2.50", ...}` →
`Printer{name="P1", address="192.0.2.50"}` pins name and address to the
payload fields.  A payload missing a required identity field raises
(`ValueError`/`TypeError`), modelled as `none`.  The argument is the parsed
JSON of the reply text. -/
def Printer.fromInfo (info : Json) (centauri_carbon : Bool) : Option Printer :=
  match info.get? "Name", info.get? "IPAddress" with
  | some (.str name), some (.str ip) =>
      let mainboardId := match info.get? "MainboardID" with
        | some (.str s) => s
        | _ => ""
      let connection := match info.get? "Id" with
        | some (.str s) => s
        | _ => ""
      some { name := name, ip_address := ip, id := mainboardId,
             connection := connection, centauri_carbon := centauri_carbon }
  | _, _ => none

/-- Modelled from the spec: the current-print-job part of `Status`
(`models/status.py` is not under src/).  The façade reads
`status.print_info.task_id`; an absent task id is `none`. -/
structure PrintInfo where
  task_id : Option String
  deriving Repr, DecidableEq

/-- Modelled from the spec: `PrinterStatus` (`models/status.py` is not under
src/): the printer operational state and current print-job progress.  The
raw payload is kept so that distinct status envelopes yield distinct
records. -/
structure PrinterStatus where
  print_info : PrintInfo
  raw : Json
  deriving Repr

/-- Modelled from the spec: `PrinterStatus.from_json`.  Parses the status
envelope; a payload without a `Status` object is malformed and raises
(`ValueError`), modelled as `Except.error`.  Inside a well-formed `Status`,
`PrintInfo.TaskId` is extracted when present. -/
def PrinterStatus.from_json (j : Json) : Except PyError PrinterStatus :=
  match j.get? "Status" with
  | some (.obj statusFields) =>
      let task_id :=
        match (Json.obj statusFields).get? "PrintInfo" with
        | some pi =>
            match pi.get? "TaskId" with
            | some (.str s) => some s
            | _ => none
        | none => none
      .ok { print_info := { task_id := task_id }, raw := j }
  | _ => .error .valueError

/-- Modelled from the spec: `PrinterAttributes` (`models/attributes.py` is
not under src/): capability/firmware metadata, kept as the raw payload. -/
structure PrinterAttributes where
  raw : Json
  deriving Repr

/-- Modelled from the spec: `PrinterAttributes.from_json`.  A payload
without an `Attributes` object is malformed and raises, modelled as
`Except.error`. -/
def PrinterAttributes.from_json (j : Json) : Except PyError PrinterAttributes :=
  match j.get? "Attributes" with
  | some (.obj _) => .ok { raw := j }
  | _ => .error .valueError

/-- Modelled from the spec: a `PrintHistoryDetail` record
(`models/print_history_detail.py` is not under src/).  The façade reads its
`thumbnail`; the record keeps the raw JSON it was built from. -/
structure PrintHistoryDetail where
  raw : Json
  thumbnail : Option String
  deriving Repr

/-- Modelled from the spec: the `PrintHistoryDetail(history_data)`
constructor, which wraps one element of the history-detail list. -/
def PrintHistoryDetail.ofJson (j : Json) : PrintHistoryDetail :=
  { raw := j,
    thumbnail := match j.get? "Thumbnail" with
      | some (.str s) => some s
      | _ => none }

/-- Modelled from the spec: `PrinterData` (`models/printer.py` is not under
src/): the Device State aggregate of latest status, latest attributes and
the print-history sequence (spec §3). -/
structure PrinterData where
  status : PrinterStatus
  attributes : PrinterAttributes
  print_history : List PrintHistoryDetail
  deriving Repr

/-- `PrinterData()` as used by `__init__`: empty sub-records. -/
def PrinterData.empty : PrinterData :=
  { status := { print_info := { task_id := none }, raw := .null },
    attributes := { raw := .null },
    print_history := [] }

/-- The client state: the fields of `ElegooPrinterClient` that the verified
operations touch.  `printer_websocket` is `some ()` when a websocket handle
is held and `none` when not connected. -/
structure ElegooPrinterClient where
  ip_address : String
  centauri_carbon : Bool
  printer_websocket : Option Unit
  printer : Printer
  printer_data : PrinterData
  deriving Repr

/-! ## Command send path (`_send_printer_cmd`, lines 108-146) -/

/-- The command envelope built by `_send_printer_cmd` before `json.dumps`.
`ts` is `int(time.time())` and `requestId` is `os.urandom(8).hex()`; both
are environment inputs, fresh per call. -/
def commandPayload (printer : Printer) (cmd : Int) (data : Json) (ts : Int)
    (requestId : String) : Json :=
  .obj [("Id", .str printer.connection),
        ("Data", .obj [("Cmd", .num cmd),
                       ("Data", data),
                       ("RequestID", .str requestId),
                       ("MainboardID", .str printer.id),
                       ("TimeStamp", .num ts),
                       ("From", .num 0)]),
        ("Topic", .str ("sdcp/request/" ++ printer.id))]

/-- The outcome the environment assigns to `self.printer_websocket.send`:
success, a `WebSocketConnectionClosedException`, another
`WebSocketException`, or an `OSError` (e.g. broken pipe) with an errno. -/
inductive SendOutcome where
  | ok
  | closedException
  | wsException
  | osError (code : Nat)
  deriving Repr, DecidableEq

/-- `_send_printer_cmd` (lines 108-146).  Returns the raised exception or
unit, paired with the trace of frames handed to the websocket (the network
I/O performed).  With no websocket handle it raises
`ElegooPrinterClientWebsocketConnectionError` and writes nothing; with a
handle, a websocket exception during send is wrapped into
`ElegooPrinterClientWebsocketError` and an `OSError` is re-raised
unchanged. -/
def send_printer_cmd (c : ElegooPrinterClient) (cmd : Int) (data : Option Json)
    (ts : Int) (requestId : String) (outcome : SendOutcome) :
    Except PyError Unit × List Json :=
  let d := data.getD (.obj [])
  let payload := commandPayload c.printer cmd d ts requestId
  match c.printer_websocket with
  | some _ =>
      match outcome with
      | .ok => (.ok (), [payload])
      | .closedException => (.error .websocketError, [payload])
      | .wsException => (.error .websocketError, [payload])
      | .osError code => (.error (.osError code), [payload])
  | none => (.error .notConnected, [])

/-! ## Discovery (`_get_broadcast_addresses`, `discover_printer`,
`_save_discovered_printer`, lines 148-250) -/

/-- `_get_broadcast_addresses` (lines 148-170).  The environment input is
the result of the `netifaces` enumeration: either the collected broadcast
addresses in iteration order, or `.error` when the enumeration raised.  On
a raise the function falls back to `["255.255.255.255"]`; otherwise it
returns the unique addresses (Python's `list(set(...))`, modelled as
duplicate removal). -/
def get_broadcast_addresses (ifaceResult : Except Unit (List String)) :
    List String :=
  match ifaceResult with
  | .error _ => ["255.255.255.255"]
  | .ok addrs => addrs.eraseDups

/-- A received discovery datagram after the Python-runtime stages:
`undecodable` models bytes that raise `UnicodeDecodeError`, `badIdentity`
models decoded text the `Printer` constructor rejects
(`ValueError`/`TypeError`), and `identity` carries the parsed JSON of a
reply text. -/
inductive ReplyData where
  | undecodable
  | badIdentity
  | identity (info : Json)
  deriving Repr

/-- `_save_discovered_printer` (lines 234-250): decode failures are logged
and yield `None`; otherwise the `Printer` constructor parses the text. -/
def save_discovered_printer (centauri_carbon : Bool) (data : ReplyData) :
    Option Printer :=
  match data with
  | .undecodable => none
  | .badIdentity => none
  | .identity info => Printer.fromInfo info centauri_carbon

/-- The outcome of the single `sock.recvfrom` in discovery: a timeout, a
socket `OSError`, or the first datagram with its sender address. -/
inductive RecvOutcome where
  | timeout
  | socketError
  | packet (data : ReplyData) (senderIp : String)
  deriving Repr

/-- The environment of one `discover_printer` attempt: the `netifaces`
enumeration result, whether `sock.bind` succeeded, and the receive
outcome. -/
structure DiscoveryEnv where
  ifaceResult : Except Unit (List String)
  bindOk : Bool
  recv : RecvOutcome

/-- The observable result of `discover_printer`: the client state after the
attempt, the returned printer (or `None`), and the addresses the probe
datagram was sent to. -/
structure DiscoverResult where
  client : ElegooPrinterClient
  found : Option Printer
  probed : List String
  deriving Repr

/-- `discover_printer` (lines 172-232).  Early-returns `None` when the
broadcast-address list is empty or when binding fails; sends the probe to
every broadcast address; on the first datagram, a successfully decoded
printer is stored in `self.printer` and returned, every other receive
outcome returns `None`.  Per-address `sendto` failures are logged and do
not change the result, so they are not modelled. -/
def discover_printer (c : ElegooPrinterClient) (env : DiscoveryEnv) :
    DiscoverResult :=
  let broadcast_addresses := get_broadcast_addresses env.ifaceResult
  if broadcast_addresses.isEmpty then
    { client := c, found := none, probed := [] }
  else if !env.bindOk then
    { client := c, found := none, probed := [] }
  else
    match env.recv with
    | .timeout => { client := c, found := none, probed := broadcast_addresses }
    | .socketError => { client := c, found := none, probed := broadcast_addresses }
    | .packet data _senderIp =>
        match save_discovered_printer c.centauri_carbon data with
        | some printer =>
            { client := { c with printer := printer }, found := some printer,
              probed := broadcast_addresses }
        | none => { client := c, found := none, probed := broadcast_addresses }

/-! ## Message router (`_parse_response` and handlers, lines 312-369) -/

/-- Helper for `pySplit`: walk the characters, cutting at the separator. -/
def pySplitAux (c : Char) : List Char → List Char → List String
  | [], acc => [String.mk acc.reverse]
  | ch :: rest, acc =>
      if ch = c then String.mk acc.reverse :: pySplitAux c rest []
      else pySplitAux c rest (ch :: acc)

/-- Python `s.split(sep)` for a one-character separator, as in
`topic.split("/")`: `""` gives `[""]`, `"a/b"` gives `["a", "b"]`, a
trailing separator yields a trailing `""`. -/
def pySplit (s : String) (c : Char) : List String :=
  pySplitAux c s.toList []

/-- Python iteration over a truthy value, as in
`[PrintHistoryDetail(h) for h in history_data_list]`: lists yield their
elements, strings their characters, dicts their keys; numbers and booleans
raise `TypeError`. -/
def Json.iterElems : Json → Except PyError (List Json)
  | .arr elems => .ok elems
  | .str s => .ok (s.toList.map (fun ch => .str (String.mk [ch])))
  | .obj fields => .ok (fields.map (fun kv => .str kv.1))
  | _ => .error .typeError

/-- `_print_history_handler` (lines 363-369): read `HistoryDetailList` from
the nested result payload; only when that value is truthy (so not for a
missing key and not for an empty list) is Device State's print-history
sequence replaced by the freshly built list.  `.get` on a non-dict payload
raises `AttributeError`. -/
def print_history_handler (st : PrinterData) (data_data : Json) :
    Except PyError PrinterData :=
  match data_data with
  | .obj _ =>
      match data_data.get? "HistoryDetailList" with
      | some v =>
          if v.truthy then
            (Json.iterElems v).map
              (fun l => { st with print_history := l.map PrintHistoryDetail.ofJson })
          else .ok st
      | none => .ok st
  | _ => .error .attributeError

/-- `_response_handler` (lines 342-349): extract `data["Data"]["Data"]`
with `{}` defaults and hand it to the history handler.  The body sits in a
`try` that catches only `json.JSONDecodeError`; an `AttributeError` from
`.get` on a non-dict passes through it. -/
def response_handler (st : PrinterData) (data : Json) :
    Except PyError PrinterData :=
  match data with
  | .obj _ =>
      let body : Except PyError PrinterData :=
        match data.get? "Data" with
        | none => print_history_handler st (.obj [])
        | some (.obj innerFields) =>
            print_history_handler st
              (((Json.obj innerFields).get? "Data").getD (.obj []))
        | some _ => .error .attributeError
      match body with
      | .error .jsonDecodeError => .ok st
      | r => r
  | _ => .error .attributeError

/-- `_status_handler` (lines 351-355): parse the envelope into a
`PrinterStatus` and assign it to `printer_data.status`.  A parse failure is
not caught here. -/
def status_handler (st : PrinterData) (data : Json) :
    Except PyError PrinterData :=
  (PrinterStatus.from_json data).map (fun s => { st with status := s })

/-- `_attributes_handler` (lines 357-361): parse the envelope into a
`PrinterAttributes` and assign it to `printer_data.attributes`.  A parse
failure is not caught here. -/
def attributes_handler (st : PrinterData) (data : Json) :
    Except PyError PrinterData :=
  (PrinterAttributes.from_json data).map (fun a => { st with attributes := a })

/-- `_parse_response` (lines 312-340).  The input is the result of
`json.loads` on the frame (`none` models a `json.JSONDecodeError`).  The
whole body sits in a `try` that catches only `json.JSONDecodeError`: a
non-JSON frame and a missing/falsy `Topic` are logged and leave the state
unchanged, but `.get` on a non-dict frame (`AttributeError`), `.split` on a
truthy non-string topic (`AttributeError`), `[1]` on a topic with no second
segment (`IndexError`) and parse failures inside the handlers propagate
out. -/
def parse_response (st : PrinterData) (loadsResult : Option Json) :
    Except PyError PrinterData :=
  let body : Except PyError PrinterData :=
    match loadsResult with
    | none => .ok st
    | some data =>
        match data with
        | .obj _ =>
            match data.get? "Topic" with
            | none => .ok st
            | some topic =>
                if topic.truthy then
                  match topic with
                  | .str s =>
                      match (pySplit s '/')[1]? with
                      | none => .error .indexError
                      | some "response" => response_handler st data
                      | some "status" => status_handler st data
                      | some "attributes" => attributes_handler st data
                      | some "notice" => .ok st
                      | some "error" => .ok st
                      | some _ => .ok st
                  | _ => .error .attributeError
                else .ok st
        | _ => .error .attributeError
  match body with
  | .error .jsonDecodeError => .ok st
  | r => r

/-! ## Client façade (`get_printer_current_task`, lines 85-93) -/

/-- Python truthiness of an optional task id (`None` and `""` are falsy). -/
def optStrTruthy : Option String → Bool
  | none => false
  | some s => s != ""

/-- `get_printer_current_task` (lines 85-93).  When the current status
carries a truthy task id, a task-detail command (code 321) is sent, the
coroutine sleeps 2 seconds, and the stored print history is returned;
otherwise the empty list is returned at once.  The result is paired with
the frames handed to the websocket and the seconds slept. -/
def get_printer_current_task (c : ElegooPrinterClient) (ts : Int)
    (requestId : String) (outcome : SendOutcome) :
    Except PyError (List PrintHistoryDetail) × List Json × Nat :=
  match c.printer_data.status.print_info.task_id with
  | some tid =>
      if tid != "" then
        match send_printer_cmd c 321 (some (.obj [("Id", .arr [.str tid])]))
            ts requestId outcome with
        | (.ok _, frames) => (.ok c.printer_data.print_history, frames, 2)
        | (.error e, frames) => (.error e, frames, 0)
      else (.ok [], [], 0)
  | none => (.ok [], [], 0)

/-! ## Shared concrete sample values used by witnesses and counterexamples -/

/-- A client as built by `__init__`: no websocket handle, empty identity,
empty device state. -/
def sampleClient : ElegooPrinterClient :=
  { ip_address := "10.0.0.2", centauri_carbon := false, printer_websocket := none,
    printer := Printer.empty, printer_data := PrinterData.empty }

/-- The sample client with a live websocket handle. -/
def connectedClient : ElegooPrinterClient :=
  { sampleClient with printer_websocket := some () }

/-- Device State holding one print-history record. -/
def stateWithHistory : PrinterData :=
  { PrinterData.empty with print_history := [PrintHistoryDetail.ofJson (.obj [("TaskId", .str "t1")])] }

/-- An inbound `response`-category envelope whose nested result payload
carries the given history-detail list. -/
def histEnvelope (l : List Json) : Json :=
  .obj [("Topic", .str "sdcp/response/MB1"),
        ("Data", .obj [("Data", .obj [("HistoryDetailList", .arr l)])])]

/-- A well-formed status envelope with a `TaskId`. -/
def sampleStatusEnvelope : Json :=
  .obj [("Topic", .str "sdcp/status/MB1"),
        ("Status", .obj [("PrintInfo", .obj [("TaskId", .str "task-7")])])]

/-- A well-formed attributes envelope. -/
def sampleAttributesEnvelope : Json :=
  .obj [("Topic", .str "sdcp/attributes/MB1"),
        ("Attributes", .obj [("Name", .str "P1")])]

/-! ## Claims -/

/-- C1: the spec requires that processing an inbound frame never raises out
of the router and that parse failures inside a category handler are caught
and logged per-message.  The code honours this only for non-JSON frames:
the frame `{"Topic": "status"}` is valid JSON, reaches the dispatch, and
`topic.split("/")[1]` raises an uncaught `IndexError` out of
`_parse_response`; a status envelope with a malformed nested `Status`
payload likewise raises an uncaught parse error out of the router.  Only
`json.JSONDecodeError` is ever caught. -/
theorem router_fault_containment_violated :
    parse_response PrinterData.empty none = .ok PrinterData.empty ∧
    parse_response PrinterData.empty (some (.obj [("Topic", .str "status")])) =
      .error .indexError ∧
    parse_response PrinterData.empty
      (some (.obj [("Topic", .str "sdcp/status/MB1"), ("Status", .num 3)])) =
      .error .valueError :=
  ⟨rfl, rfl, rfl⟩

/-- C4: sending any command on a client whose websocket handle is absent
raises `ElegooPrinterClientWebsocketConnectionError` and hands nothing to
any socket. -/
theorem send_without_handle_raises_and_writes_nothing :
    ∀ (c : ElegooPrinterClient) (cmd : Int) (data : Option Json) (ts : Int)
      (requestId : String) (outcome : SendOutcome),
      c.printer_websocket = none →
      send_printer_cmd c cmd data ts requestId outcome =
        (.error .notConnected, []) := by
  intro c cmd data ts requestId outcome h
  simp [send_printer_cmd, h]

/-- Witness for C4: the freshly initialised client has no handle, and
sending the status query on it raises the not-connected condition with an
empty I/O trace. -/
theorem send_without_handle_raises_and_writes_nothing_witness :
    sampleClient.printer_websocket = none ∧
    send_printer_cmd sampleClient 0 none 1700000000 "ab12" .ok =
      (.error .notConnected, []) :=
  ⟨rfl, send_without_handle_raises_and_writes_nothing sampleClient 0 none
    1700000000 "ab12" .ok rfl⟩

/-- C5: with a live handle, both websocket exception classes during send
are wrapped into the distinguished `ElegooPrinterClientWebsocketError`,
while an `OSError` is re-raised unchanged, and the two fault classes are
distinguishable. -/
theorem send_fault_classes_distinguished :
    ∀ (c : ElegooPrinterClient) (cmd : Int) (data : Option Json) (ts : Int)
      (requestId : String),
      c.printer_websocket = some () →
      (send_printer_cmd c cmd data ts requestId .closedException).1 =
          .error .websocketError ∧
      (send_printer_cmd c cmd data ts requestId .wsException).1 =
          .error .websocketError ∧
      (∀ code : Nat,
        (send_printer_cmd c cmd data ts requestId (.osError code)).1 =
          .error (.osError code)) ∧
      (∀ code : Nat, (PyError.websocketError : PyError) ≠ .osError code) := by
  intro c cmd data ts requestId h
  refine ⟨?_, ?_, ?_, ?_⟩
  · simp [send_printer_cmd, h]
  · simp [send_printer_cmd, h]
  · intro code; simp [send_printer_cmd, h]
  · intro code hc; cases hc

/-- Witness for C5: on the connected client, a closed-connection exception
surfaces as the wrapped websocket error and errno 32 (broken pipe)
surfaces unchanged. -/
theorem send_fault_classes_distinguished_witness :
    connectedClient.printer_websocket = some () ∧
    (send_printer_cmd connectedClient 1 none 1700000000 "ab12"
        .closedException).1 = .error .websocketError ∧
    (send_printer_cmd connectedClient 1 none 1700000000 "ab12"
        (.osError 32)).1 = .error (.osError 32) :=
  ⟨rfl,
   (send_fault_classes_distinguished connectedClient 1 none 1700000000 "ab12"
     rfl).1,
   (send_fault_classes_distinguished connectedClient 1 none 1700000000 "ab12"
     rfl).2.2.1 32⟩

/-- C8: for every device identity, command code and payload map, the
encoded command envelope decodes back (field extraction on the JSON the
wire carries) to the same `Data.Cmd`, the same `Data.MainboardID` and a
structurally equal `Data.Data`; the `TimeStamp` and `RequestID` inputs are
per-call and do not affect these three fields. -/
theorem command_envelope_roundtrip :
    ∀ (p : Printer) (cmd : Int) (data : Json) (ts : Int) (requestId : String),
      ((commandPayload p cmd data ts requestId).get? "Data").bind
          (fun d => d.get? "Cmd") = some (.num cmd) ∧
      ((commandPayload p cmd data ts requestId).get? "Data").bind
          (fun d => d.get? "MainboardID") = some (.str p.id) ∧
      ((commandPayload p cmd data ts requestId).get? "Data").bind
          (fun d => d.get? "Data") = some data ∧
      (commandPayload p cmd data ts requestId).get? "Topic" =
        some (.str ("sdcp/request/" ++ p.id)) := by
  intro p cmd data ts requestId
  refine ⟨rfl, rfl, rfl, rfl⟩

/-- C9: when the stored status carries no truthy task id (absent or the
empty string), `get_printer_current_task` returns the empty list at once:
no frame is handed to the websocket and no settle sleep happens. -/
theorem current_task_without_id_is_pure :
    ∀ (c : ElegooPrinterClient) (ts : Int) (requestId : String)
      (outcome : SendOutcome),
      optStrTruthy c.printer_data.status.print_info.task_id = false →
      get_printer_current_task c ts requestId outcome = (.ok [], [], 0) := by
  intro c ts requestId outcome h
  unfold get_printer_current_task
  cases htid : c.printer_data.status.print_info.task_id with
  | none => rfl
  | some tid =>
      rw [htid] at h
      simp only [optStrTruthy] at h
      simp [h]

/-- Witness for C9: the freshly initialised client has no task id, and the
call returns the empty list with no I/O and no sleep. -/
theorem current_task_without_id_is_pure_witness :
    optStrTruthy sampleClient.printer_data.status.print_info.task_id = false ∧
    get_printer_current_task sampleClient 1700000000 "ab12" .ok =
      (.ok [], [], 0) :=
  ⟨rfl, current_task_without_id_is_pure sampleClient 1700000000 "ab12" .ok rfl⟩

/-- C6: a status envelope that parses replaces the status record wholesale
— the resulting status depends only on the envelope, not on the prior
status, and no other Device State field moves — and a subsequent
attributes envelope leaves the status field unchanged. -/
theorem status_full_replace_attributes_preserve :
    ∀ (st : PrinterData) (d e : Json) (s₁ s₂ : PrinterData),
      status_handler st d = .ok s₁ →
      attributes_handler s₁ e = .ok s₂ →
      (∀ st' : PrinterData,
        status_handler st' d = .ok { st' with status := s₁.status }) ∧
      s₁.attributes = st.attributes ∧
      s₁.print_history = st.print_history ∧
      s₂.status = s₁.status := by
  intro st d e s₁ s₂ h₁ h₂
  unfold status_handler at h₁
  cases hd : PrinterStatus.from_json d with
  | error err => rw [hd] at h₁; cases h₁
  | ok s =>
      rw [hd] at h₁
      cases h₁
      unfold attributes_handler at h₂
      cases he : PrinterAttributes.from_json e with
      | error err => rw [he] at h₂; cases h₂
      | ok a =>
          rw [he] at h₂
          cases h₂
          refine ⟨?_, rfl, rfl, rfl⟩
          intro st'
          unfold status_handler
          rw [hd]
          rfl

/-- Witness for C6: on the empty Device State, a concrete status envelope
parses and is installed, and a following attributes envelope keeps that
status. -/
theorem status_full_replace_attributes_preserve_witness :
    ∃ s₁ s₂ : PrinterData,
      status_handler PrinterData.empty sampleStatusEnvelope = .ok s₁ ∧
      attributes_handler s₁ sampleAttributesEnvelope = .ok s₂ ∧
      s₂.status = s₁.status :=
  ⟨_, _, rfl, rfl,
    (status_full_replace_attributes_preserve PrinterData.empty
      sampleStatusEnvelope sampleAttributesEnvelope _ _ rfl rfl).2.2.2⟩

/-- C7 counterexample: the claim includes N = 0, but
`if history_data_list:` treats the empty list as falsy, so a response
envelope carrying an empty history-detail list leaves the one stored entry
in place instead of replacing the history with 0 entries. -/
theorem empty_history_list_does_not_replace :
    parse_response stateWithHistory (some (histEnvelope [])) =
      .ok stateWithHistory ∧
    stateWithHistory.print_history.length = 1 :=
  ⟨rfl, rfl⟩

/-- C7 amended: for every response envelope whose nested result payload
carries a history-detail list of length N ≥ 1, the print-history sequence
afterwards has exactly N entries, in list order, replacing the previous
history; status and attributes are untouched.  (For N = 0 the prior
history is kept unchanged.) -/
theorem history_list_full_replace_nonempty :
    ∀ (st : PrinterData) (l : List Json),
      l ≠ [] →
      ∃ r : PrinterData,
        parse_response st (some (histEnvelope l)) = .ok r ∧
        r.print_history = l.map PrintHistoryDetail.ofJson ∧
        r.print_history.length = l.length ∧
        r.status = st.status ∧
        r.attributes = st.attributes := by
  intro st l hl
  cases l with
  | nil => exact absurd rfl hl
  | cons x xs =>
      refine ⟨_, rfl, rfl, ?_, rfl, rfl⟩
      simp

/-- Witness for C7 amended: a two-element history list installs exactly two
entries in order over a previously one-element history. -/
theorem history_list_full_replace_nonempty_witness :
    ([Json.obj [("TaskId", .str "a")], Json.obj [("TaskId", .str "b")]] :
        List Json) ≠ [] ∧
    ∃ r : PrinterData,
      parse_response stateWithHistory
          (some (histEnvelope
            [.obj [("TaskId", .str "a")], .obj [("TaskId", .str "b")]])) =
        .ok r ∧
      r.print_history =
        [PrintHistoryDetail.ofJson (.obj [("TaskId", .str "a")]),
         PrintHistoryDetail.ofJson (.obj [("TaskId", .str "b")])] ∧
      r.print_history.length = 2 ∧
      r.status = stateWithHistory.status ∧
      r.attributes = stateWithHistory.attributes :=
  ⟨by simp,
   history_list_full_replace_nonempty stateWithHistory
     [.obj [("TaskId", .str "a")], .obj [("TaskId", .str "b")]] (by simp)⟩

/-! ## Discovery sample environments -/

/-- A discovery reply payload whose embedded address differs from the UDP
sender address used below. -/
def mismatchedReplyInfo : Json :=
  .obj [("Name", .str "P1"), ("IPAddress", .str "192.0.2.50"),
        ("MainboardID", .str "MB1"), ("Id", .str "conn1")]

/-- The printer `mismatchedReplyInfo` decodes to. -/
def discoveredPrinter : Printer :=
  { name := "P1", ip_address := "192.0.2.50", id := "MB1",
    connection := "conn1", centauri_carbon := false }

/-- A discovery attempt whose first datagram comes from sender `10.0.0.5`
but embeds address `192.0.2.50`. -/
def mismatchedEnv : DiscoveryEnv :=
  { ifaceResult := .ok ["10.0.0.255"], bindOk := true,
    recv := .packet (.identity mismatchedReplyInfo) "10.0.0.5" }

/-- A discovery attempt where interface enumeration succeeds but collects
no broadcast addresses. -/
def emptyIfaceEnv : DiscoveryEnv :=
  { ifaceResult := .ok [], bindOk := true, recv := .timeout }

/-- A discovery attempt where the `netifaces` enumeration raises. -/
def raiseEnv : DiscoveryEnv :=
  { ifaceResult := .error (), bindOk := true, recv := .timeout }

/-- A discovery attempt that times out waiting for a reply. -/
def timeoutEnv : DiscoveryEnv :=
  { ifaceResult := .ok ["10.0.0.255"], bindOk := true, recv := .timeout }

/-- A decoded printer's address is exactly the `IPAddress` field of the
reply payload it was built from. -/
theorem fromInfo_address :
    ∀ (info : Json) (cc : Bool) (p : Printer),
      Printer.fromInfo info cc = some p →
      info.get? "IPAddress" = some (.str p.ip_address) := by
  intro info cc p h
  unfold Printer.fromInfo at h
  split at h
  · next name ip hname hip =>
      cases h
      exact hip
  · cases h

/-- C2 counterexample: a valid reply sent from `10.0.0.5` that embeds
`192.0.2.50` yields a Printer whose address is `192.0.2.50`, not the UDP
sender's address — `discover_printer` never consults `remote_addr` beyond
logging it. -/
theorem discovered_address_differs_from_sender :
    (discover_printer sampleClient mismatchedEnv).found =
      some discoveredPrinter ∧
    (∃ d : ReplyData, mismatchedEnv.recv = .packet d "10.0.0.5") ∧
    discoveredPrinter.ip_address = "192.0.2.50" ∧
    discoveredPrinter.ip_address ≠ "10.0.0.5" :=
  ⟨rfl, ⟨_, rfl⟩, rfl, by decide⟩

/-- C2 amended: for every valid discovery reply, `discover_printer`
returns a Printer whose address equals the `IPAddress` field embedded in
the reply payload; the UDP sender address does not influence the result. -/
theorem discover_returns_payload_address :
    ∀ (c : ElegooPrinterClient) (env : DiscoveryEnv) (info : Json)
      (sender : String) (p : Printer),
      env.recv = .packet (.identity info) sender →
      (discover_printer c env).found = some p →
      info.get? "IPAddress" = some (.str p.ip_address) ∧
      ∀ sender' : String,
        (discover_printer c
            { env with recv := .packet (.identity info) sender' }).found =
          some p := by
  intro c env info sender p hrecv hfound
  by_cases h1 : (get_broadcast_addresses env.ifaceResult).isEmpty
  · simp [discover_printer, h1] at hfound
  · by_cases h2 : env.bindOk
    · cases hs : save_discovered_printer c.centauri_carbon (.identity info) with
      | none =>
          simp [discover_printer, h1, h2, hrecv, hs] at hfound
      | some q =>
          have hq : q = p := by
            simpa [discover_printer, h1, h2, hrecv, hs] using hfound
          subst hq
          constructor
          · exact fromInfo_address info c.centauri_carbon q hs
          · intro sender'
            simp [discover_printer, h1, h2, hs]
    · simp [discover_printer, h1, h2] at hfound

/-- Witness for C2 amended: on the mismatched-sender environment the
returned printer's address is the payload's `IPAddress`, and any other
sender address would have produced the same printer. -/
theorem discover_returns_payload_address_witness :
    mismatchedEnv.recv = .packet (.identity mismatchedReplyInfo) "10.0.0.5" ∧
    (discover_printer sampleClient mismatchedEnv).found =
      some discoveredPrinter ∧
    mismatchedReplyInfo.get? "IPAddress" =
      some (.str discoveredPrinter.ip_address) ∧
    (discover_printer sampleClient
        { mismatchedEnv with
          recv := .packet (.identity mismatchedReplyInfo) "172.16.0.9" }).found =
      some discoveredPrinter :=
  ⟨rfl, rfl,
   (discover_returns_payload_address sampleClient mismatchedEnv
     mismatchedReplyInfo "10.0.0.5" discoveredPrinter rfl rfl).1,
   (discover_returns_payload_address sampleClient mismatchedEnv
     mismatchedReplyInfo "10.0.0.5" discoveredPrinter rfl rfl).2 "172.16.0.9"⟩

/-- C3 counterexample: when interface enumeration succeeds but yields no
broadcast addresses, `_get_broadcast_addresses` returns the empty list —
not the limited-broadcast fallback — and `discover_printer` then treats
the attempt as failed, probing nothing. -/
theorem no_fallback_when_enumeration_yields_none :
    get_broadcast_addresses (.ok []) = [] ∧
    (discover_printer sampleClient emptyIfaceEnv).found = none ∧
    (discover_printer sampleClient emptyIfaceEnv).probed = [] ∧
    ([] : List String) ≠ ["255.255.255.255"] :=
  ⟨rfl, rfl, rfl, by simp⟩

/-- C3 amended: the fallback to the limited broadcast address
`255.255.255.255` happens exactly when interface enumeration raises; when
it succeeds but yields no broadcast addresses, the attempt is treated as
failed — no probe is sent and no printer is returned. -/
theorem broadcast_fallback_only_on_raise :
    ∀ (c : ElegooPrinterClient) (env : DiscoveryEnv),
      (env.ifaceResult = .error () →
        get_broadcast_addresses env.ifaceResult = ["255.255.255.255"] ∧
        (env.bindOk = true →
          (discover_printer c env).probed = ["255.255.255.255"])) ∧
      (env.ifaceResult = .ok [] →
        (discover_printer c env).found = none ∧
        (discover_printer c env).probed = []) := by
  intro c env
  constructor
  · intro herr
    have haddr : get_broadcast_addresses env.ifaceResult =
        ["255.255.255.255"] := by
      simp [get_broadcast_addresses, herr]
    refine ⟨haddr, ?_⟩
    intro hbind
    cases hr : env.recv with
    | timeout => simp [discover_printer, haddr, hbind, hr]
    | socketError => simp [discover_printer, haddr, hbind, hr]
    | packet d sender =>
        cases hs : save_discovered_printer c.centauri_carbon d with
        | none => simp [discover_printer, haddr, hbind, hr, hs]
        | some q => simp [discover_printer, haddr, hbind, hr, hs]
  · intro hok
    have haddr : get_broadcast_addresses env.ifaceResult = [] := by
      rw [hok]; rfl
    constructor
    · simp [discover_printer, haddr]
    · simp [discover_printer, haddr]

/-- Witness for C3 amended: with a raising enumeration the probe goes to
`255.255.255.255`; with an empty enumeration the attempt fails with no
probe. -/
theorem broadcast_fallback_only_on_raise_witness :
    raiseEnv.ifaceResult = .error () ∧
    raiseEnv.bindOk = true ∧
    (discover_printer sampleClient raiseEnv).probed = ["255.255.255.255"] ∧
    emptyIfaceEnv.ifaceResult = .ok [] ∧
    (discover_printer sampleClient emptyIfaceEnv).found = none :=
  ⟨rfl, rfl,
   ((broadcast_fallback_only_on_raise sampleClient raiseEnv).1 rfl).2 rfl,
   rfl,
   ((broadcast_fallback_only_on_raise sampleClient emptyIfaceEnv).2 rfl).1⟩

/-- C10: whenever a discovery attempt returns no printer, the stored
printer identity is exactly what it was before the attempt; when it does
return a printer, that printer is stored and came from a successfully
decoded received datagram. -/
theorem discovery_identity_update_discipline :
    ∀ (c : ElegooPrinterClient) (env : DiscoveryEnv),
      ((discover_printer c env).found = none →
        (discover_printer c env).client.printer = c.printer) ∧
      (∀ p : Printer,
        (discover_printer c env).found = some p →
          (discover_printer c env).client.printer = p ∧
          ∃ (d : ReplyData) (sender : String),
            env.recv = .packet d sender ∧
            save_discovered_printer c.centauri_carbon d = some p) := by
  intro c env
  by_cases h1 : (get_broadcast_addresses env.ifaceResult).isEmpty
  · constructor
    · intro _; simp [discover_printer, h1]
    · intro p hp; simp [discover_printer, h1] at hp
  · by_cases h2 : env.bindOk
    · cases hr : env.recv with
      | timeout =>
          constructor
          · intro _; simp [discover_printer, h1, h2, hr]
          · intro p hp; simp [discover_printer, h1, h2, hr] at hp
      | socketError =>
          constructor
          · intro _; simp [discover_printer, h1, h2, hr]
          · intro p hp; simp [discover_printer, h1, h2, hr] at hp
      | packet d sender =>
          cases hs : save_discovered_printer c.centauri_carbon d with
          | none =>
              constructor
              · intro _; simp [discover_printer, h1, h2, hr, hs]
              · intro p hp; simp [discover_printer, h1, h2, hr, hs] at hp
          | some q =>
              constructor
              · intro hnone
                simp [discover_printer, h1, h2, hr, hs] at hnone
              · intro p hp
                have hq : q = p := by
                  simpa [discover_printer, h1, h2, hr, hs] using hp
                subst hq
                refine ⟨?_, d, sender, rfl, hs⟩
                simp [discover_printer, h1, h2, hr, hs]
    · constructor
      · intro _; simp [discover_printer, h1, h2]
      · intro p hp; simp [discover_printer, h1, h2] at hp

/-- Witness for C10: a timed-out attempt leaves the stored identity
untouched, and the successful attempt stores exactly the returned
printer. -/
theorem discovery_identity_update_discipline_witness :
    (discover_printer sampleClient timeoutEnv).found = none ∧
    (discover_printer sampleClient timeoutEnv).client.printer =
      sampleClient.printer ∧
    (discover_printer sampleClient mismatchedEnv).found =
      some discoveredPrinter ∧
    (discover_printer sampleClient mismatchedEnv).client.printer =
      discoveredPrinter :=
  ⟨rfl,
   (discovery_identity_update_discipline sampleClient timeoutEnv).1 rfl,
   rfl,
   ((discovery_identity_update_discipline sampleClient mismatchedEnv).2
     discoveredPrinter rfl).1⟩
